import Mathlib

/-!
Shallow embedding of the kepler node-telemetry agent (collector pipeline,
cgroup slice handler, node power-component backend selection) together with
proofs about the embedded operations.

Go maps are embedded as association lists (`lookupA` / `setA`), Go `uint64`
values as `Nat`, and fallible calls as `Except`.  File-system probing and the
leaf libraries that are external to the embedded files (accelerator library,
pid-to-container resolver, stat-file readers) are supplied through explicit
environment records so that the embedded control flow stays exactly that of
the source.
-/

namespace Kepler

/-- Lookup in an association list, embedding a Go map read `m[k]`. -/
def lookupA {κ α : Type} [DecidableEq κ] (m : List (κ × α)) (k : κ) : Option α :=
  match m with
  | [] => none
  | (k', v) :: rest => if k' = k then some v else lookupA rest k

/-- Update or insert in an association list, embedding a Go map write `m[k] = v`. -/
def setA {κ α : Type} [DecidableEq κ] (m : List (κ × α)) (k : κ) (v : α) : List (κ × α) :=
  match m with
  | [] => [(k, v)]
  | (k', v') :: rest => if k' = k then (k, v) :: rest else (k', v') :: setA rest k v

theorem lookupA_setA_self {κ α : Type} [DecidableEq κ] (m : List (κ × α)) (k : κ) (v : α) :
    lookupA (setA m k v) k = some v := by
  induction m with
  | nil => simp [lookupA, setA]
  | cons hd tl ih =>
    by_cases h : hd.1 = k
    · simp [lookupA, setA, h]
    · simp [lookupA, setA, h, ih]

theorem lookupA_setA_ne {κ α : Type} [DecidableEq κ] (m : List (κ × α)) (k k' : κ) (v : α)
    (h : k' ≠ k) : lookupA (setA m k v) k' = lookupA m k' := by
  have hne : k ≠ k' := fun he => h he.symm
  induction m with
  | nil => simp [lookupA, setA, hne]
  | cons hd tl ih =>
    by_cases hh : hd.1 = k
    · subst hh
      simp [lookupA, setA, hne]
    · simp only [setA, if_neg hh, lookupA]
      by_cases hk' : hd.1 = k'
      · simp [hk']
      · simp [hk', ih]

/-! ## Counter channel (`UInt64Stat`, `UInt64StatCollection`)

The channel types live in the metric package of the repository, outside the
embedded files; their operations are modelled from the spec. -/

/-- Single counter channel state: latest aggregate and current delta. -/
structure UInt64Stat where
  aggr : Nat
  curr : Nat
deriving DecidableEq

/-- Modelled from the spec: `UInt64Stat.AddNewCurr` (metric package, not under
src/) is the delta-push write mode: push a positive increment `v`, with
`agg += v` and `curr += v`. -/
def UInt64Stat.AddNewCurr (s : UInt64Stat) (v : Nat) : UInt64Stat :=
  { aggr := s.aggr + v, curr := s.curr + v }

def UInt64Stat.zero : UInt64Stat := { aggr := 0, curr := 0 }

/-- Channel with per-producer sub-aggregates, previous aggregate and current
delta, as described for a counter channel. -/
structure UInt64StatCollection where
  stat : List (String × Nat)
  prevAggr : Nat
  curr : Nat
deriving DecidableEq

/-- Channel-level aggregate: the sum of the per-producer contributions. -/
def UInt64StatCollection.aggr (s : UInt64StatCollection) : Nat :=
  s.stat.foldl (fun acc kv => acc + kv.2) 0

/-- Modelled from the spec: `UInt64StatCollection.AddAggrStat` (metric package,
not under src/) is the aggregate-set write mode: set or replace the named
producer's contribution. -/
def UInt64StatCollection.AddAggrStat (s : UInt64StatCollection) (key : String) (v : Nat) :
    UInt64StatCollection :=
  { s with stat := setA s.stat key v }

/-- Modelled from the spec: `commit` (metric package, not under src/) snapshots
the channel: `curr = max(0, agg - prev_agg)` and `prev_agg = agg`.  Natural
subtraction on `Nat` realises the clamp at zero. -/
def UInt64StatCollection.commit (s : UInt64StatCollection) : UInt64StatCollection :=
  { s with curr := s.aggr - s.prevAggr, prevAggr := s.aggr }

/-- Empty channel, the state of a freshly created collection. -/
def UInt64StatCollection.empty : UInt64StatCollection :=
  { stat := [], prevAggr := 0, curr := 0 }

/-! ## Cgroup slice handler (`pkg/cgroup/slice_handler.go`) -/

/-- Constant `sliceSuffix` of `slice_handler.go`. -/
def sliceSuffix : String := ".slice"

/-- Constant `scopeSuffix` of `slice_handler.go`. -/
def scopeSuffix : String := ".scope"

/-- Variable `baseCGroupPath` of `slice_handler.go`. -/
def baseCGroupPath : String := "/sys/fs/cgroup"

/-- Variable `KubePodCGroupPath` of `slice_handler.go`. -/
def KubePodCGroupPath : String := "/sys/fs/cgroup/kubepods.slice"

/-- Variable `SystemCGroupPath` of `slice_handler.go`. -/
def SystemCGroupPath : String := "/sys/fs/cgroup/system.slice"

/-- Stat readers registered per container.  `CPUStatReader`, `MemoryStatReader`
and `IOStatReader` carry the per-controller container path, as in
`TryInitStatReaders`; their `Read` implementations live outside the embedded
file and are supplied by the environment. -/
inductive StatReader where
  | cpuStatReader (path : String)
  | memoryStatReader (path : String)
  | ioStatReader (path : String)
deriving DecidableEq

/-- State of `SliceHandler`: the reader registry and the three top paths. -/
structure SliceHandler where
  statReaders : List (String × List StatReader)
  CPUTopPath : String
  MemoryTopPath : String
  IOTopPath : String
deriving DecidableEq

/-- Environment for the cgroup module: the file-system probe used by
`InitSliceHandler` (`os.Stat` succeeding), the container-path search
`SearchByContainerID` (defined outside the embedded file), the stat-file
`Read` results of each reader, and the raw-to-standard metric-name map used by
`convertToStandard`. -/
structure CgroupFS where
  pathExists : String → Bool
  searchByContainerID : String → String → String
  readStats : StatReader → List (String × Nat)
  standardName : String → Option String

/-- Embedding of `filepath.Join` on the clean, slash-free components used in
`InitSliceHandler`. -/
def filepathJoin (a b : String) : String := a ++ "/" ++ b

/-- `InitSliceHandler`: probe the kube-pods slice, then the system slice, then
fall back to the legacy per-controller tree; `handler.Init()` leaves the
reader registry empty. -/
def InitSliceHandler (fs : CgroupFS) : SliceHandler :=
  if fs.pathExists KubePodCGroupPath then
    { statReaders := []
      CPUTopPath := KubePodCGroupPath
      MemoryTopPath := KubePodCGroupPath
      IOTopPath := KubePodCGroupPath }
  else if fs.pathExists SystemCGroupPath then
    { statReaders := []
      CPUTopPath := SystemCGroupPath
      MemoryTopPath := SystemCGroupPath
      IOTopPath := SystemCGroupPath }
  else
    { statReaders := []
      CPUTopPath := filepathJoin baseCGroupPath "cpu"
      MemoryTopPath := filepathJoin baseCGroupPath "memory"
      IOTopPath := filepathJoin baseCGroupPath "blkio" }

/-- `SliceHandler.GetStats`: if readers exist for the container id, merge their
`Read` results into one value map; otherwise return the empty map. -/
def SliceHandler.GetStats (s : SliceHandler) (fs : CgroupFS) (containerID : String) :
    List (String × Nat) :=
  match lookupA s.statReaders containerID with
  | some readers =>
      readers.foldl
        (fun values r => (fs.readStats r).foldl (fun vs kv => setA vs kv.1 kv.2) values) []
  | none => []

/-- Embedding of `strings.Replace(s, patt, repl, 1)`: replace the first
occurrence of `patt` in `s` by `repl`. -/
def stringReplaceFirst (s patt repl : String) : String :=
  match s.splitOn patt with
  | [] => s
  | [_] => s
  | x :: rest => x ++ repl ++ String.intercalate patt rest

/-- `TryInitStatReaders`: if no readers are registered for the container id,
search its CPU path under the CPU top path, derive the memory and IO paths by
top-path substitution, and register one CPU, one memory and one IO reader. -/
def TryInitStatReaders (fs : CgroupFS) (s : SliceHandler) (containerID : String) :
    SliceHandler :=
  match lookupA s.statReaders containerID with
  | some _ => s
  | none =>
      let containerCPUPath := fs.searchByContainerID s.CPUTopPath containerID
      let containerMemoryPath := stringReplaceFirst containerCPUPath s.CPUTopPath s.MemoryTopPath
      let containerIOPath := stringReplaceFirst containerCPUPath s.CPUTopPath s.IOTopPath
      let readers := [StatReader.cpuStatReader containerCPUPath,
                      StatReader.memoryStatReader containerMemoryPath,
                      StatReader.ioStatReader containerIOPath]
      { s with statReaders := setA s.statReaders containerID readers }

/-- Modelled from the spec: `convertToStandard` (pkg/cgroup, not under src/)
renames each raw cgroup stat to its standard metric name entrywise, dropping
entries with no standard name; a missing value maps to an absent update. -/
def convertToStandard (fs : CgroupFS) (stats : List (String × Nat)) : List (String × Nat) :=
  stats.filterMap (fun kv => (fs.standardName kv.1).map (fun n => (n, kv.2)))

/-- `GetStandardStat`: read the container's stats and convert them to standard
metric names. -/
def GetStandardStat (fs : CgroupFS) (s : SliceHandler) (containerID : String) :
    List (String × Nat) :=
  convertToStandard fs (s.GetStats fs containerID)

/-! ## Node power-components package (`pkg/power/components`) -/

/-- Per-socket RAPL component energies, mirroring
`source.NodeComponentsEnergy` with its `Pkg`, `Core`, `DRAM` (and uncore)
millijoule fields. -/
structure NodeComponentsEnergy where
  pkg : Nat
  core : Nat
  dram : Nat
  uncore : Nat
deriving DecidableEq

/-- Behaviour of one concrete `powerInterface` implementation: the energy
readings it would return and whether it reports system collection as
supported. -/
structure PowerImpl where
  energyFromDram : Except String Nat
  energyFromCore : Except String Nat
  energyFromUncore : Except String Nat
  energyFromPackage : Except String Nat
  nodeComponentsEnergy : List (Nat × NodeComponentsEnergy)
  systemCollectionSupported : Bool

/-- Environment of the components package: the three concrete backends
(`sysfsImpl`, `msrImpl`, `dummyImpl`) and the `useMSR` feature flag. -/
structure ComponentsEnv where
  sysfsImpl : PowerImpl
  msrImpl : PowerImpl
  dummyImpl : PowerImpl
  useMSR : Bool

/-- The `init()` selection of `powerImpl`: sysfs when it reports supported,
else MSR when supported and the `useMSR` flag is set, else the dummy
backend. -/
def selectPowerImpl (env : ComponentsEnv) : PowerImpl :=
  if env.sysfsImpl.systemCollectionSupported then env.sysfsImpl
  else if env.msrImpl.systemCollectionSupported && env.useMSR then env.msrImpl
  else env.dummyImpl

/-- Package-level `GetEnergyFromDram`, dispatching to the selected backend. -/
def GetEnergyFromDram (env : ComponentsEnv) : Except String Nat :=
  (selectPowerImpl env).energyFromDram

/-- Package-level `GetEnergyFromCore`, dispatching to the selected backend. -/
def GetEnergyFromCore (env : ComponentsEnv) : Except String Nat :=
  (selectPowerImpl env).energyFromCore

/-- Package-level `GetEnergyFromUncore`, dispatching to the selected backend. -/
def GetEnergyFromUncore (env : ComponentsEnv) : Except String Nat :=
  (selectPowerImpl env).energyFromUncore

/-- Package-level `GetEnergyFromPackage`, dispatching to the selected backend. -/
def GetEnergyFromPackage (env : ComponentsEnv) : Except String Nat :=
  (selectPowerImpl env).energyFromPackage

/-- Package-level `GetNodeComponentsEnergy`, dispatching to the selected
backend. -/
def GetNodeComponentsEnergy (env : ComponentsEnv) : List (Nat × NodeComponentsEnergy) :=
  (selectPowerImpl env).nodeComponentsEnergy

/-- Package-level `IsSystemCollectionSupported`, dispatching to the selected
backend. -/
def IsSystemCollectionSupported (env : ComponentsEnv) : Bool :=
  (selectPowerImpl env).systemCollectionSupported

/-! ## Collector state and node-energy updates (collector package) -/

/-- One entry of the per-device process-utilization map,
`accelerator_source.ProcessUtilizationSample`. -/
structure ProcessUtilizationSample where
  smUtil : Nat
  memUtil : Nat
deriving DecidableEq

/-- Counter name `config.GPUSMUtilization`. -/
def GPUSMUtilization : String := "gpu_sm_util"

/-- Counter name `config.GPUMemUtilization`. -/
def GPUMemUtilization : String := "gpu_mem_util"

/-- Per-container metric record, restricted to the fields the embedded
collector functions touch: identity and the map of counter channels
(`CounterStats`). -/
structure ContainerMetrics where
  containerName : String
  counterStats : List (String × UInt64Stat)
deriving DecidableEq

/-- Modelled from the spec: `NewContainerMetrics` (metric package, not under
src/) creates a fresh record for a first-seen container id with empty
channels. -/
def NewContainerMetrics (containerName : String) : ContainerMetrics :=
  { containerName := containerName, counterStats := [] }

/-- Node metric record, restricted to the node-only channels the embedded
functions write: platform energy per sensor, component energies per socket,
GPU energy per device. -/
structure NodeMetrics where
  platformEnergy : List (String × Nat)
  componentsEnergy : List (Nat × NodeComponentsEnergy)
  gpuEnergy : List (Nat × Nat)
deriving DecidableEq

/-- Modelled from the spec: `AddLastestPlatformEnergy` (metric package, not
under src/) records the platform meter's per-sensor values on the node's
platform-energy channel as aggregate sets. -/
def NodeMetrics.AddLastestPlatformEnergy (n : NodeMetrics) (m : List (String × Nat)) :
    NodeMetrics :=
  { n with platformEnergy := m.foldl (fun acc kv => setA acc kv.1 kv.2) n.platformEnergy }

/-- Modelled from the spec: `AddNodeComponentsEnergy` (metric package, not
under src/) records the per-socket component energies on the node record as
aggregate sets. -/
def NodeMetrics.AddNodeComponentsEnergy (n : NodeMetrics)
    (m : List (Nat × NodeComponentsEnergy)) : NodeMetrics :=
  { n with componentsEnergy := m.foldl (fun acc kv => setA acc kv.1 kv.2) n.componentsEnergy }

/-- Modelled from the spec: `AddNodeGPUEnergy` (metric package, not under
src/) adds each device's millijoules since the last read onto the node's
per-device GPU-energy channel as a delta push. -/
def NodeMetrics.AddNodeGPUEnergy (n : NodeMetrics) (m : List (Nat × Nat)) : NodeMetrics :=
  { n with gpuEnergy :=
      m.foldl (fun acc kv => setA acc kv.1 ((lookupA acc kv.1).getD 0 + kv.2)) n.gpuEnergy }

/-- Leaf reads performed by the node-energy update functions, recorded in
order on the collector's event log. -/
inductive NodeReadEvent where
  | platformRead
  | componentsRead
  | cpuFreqRead
  | gpuRead
deriving DecidableEq

/-- State of the `Collector` struct touched by the embedded functions, plus an
event log recording the order of the node-level leaf reads. -/
structure Collector where
  ContainersMetrics : List (String × ContainerMetrics)
  NodeMetrics : NodeMetrics
  NodeCPUFrequency : List (Nat × Nat)
  systemProcessName : String
  log : List NodeReadEvent
deriving DecidableEq

/-- Environment of the collector: configuration flags, the ACPI power meter,
the power-model estimators, the components package environment, and the
accelerator library with the pid-to-container resolver. -/
structure CollectorEnv where
  acpiPowerSupported : Bool
  acpiHostEnergy : List (String × Nat)
  nodePlatformPowerModelEnabled : Bool
  estimatedNodePlatformPower : NodeMetrics → List (String × Nat)
  components : ComponentsEnv
  nodeComponentPowerModelEnabled : Bool
  modelNodeComponentPowers : NodeMetrics → List (Nat × NodeComponentsEnergy)
  enabledGPU : Bool
  gpuEnergyPerGPU : List (Nat × Nat)
  cpuCoreFrequency : List (Nat × Nat)
  gpus : List Nat
  queryDevice : Nat → Except String (List (Nat × ProcessUtilizationSample))
  resolvePid : Nat → Except String String

/-- `updatePlatformEnergy`: read the ACPI meter when it reports power
supported; otherwise, when the node platform power model is enabled, take the
model estimate; record the result on the node platform channel. -/
def updatePlatformEnergy (env : CollectorEnv) (c : Collector) : Collector :=
  let nodePlatformEnergy :=
    if env.acpiPowerSupported then env.acpiHostEnergy
    else if env.nodePlatformPowerModelEnabled then
      env.estimatedNodePlatformPower c.NodeMetrics
    else []
  { c with NodeMetrics := c.NodeMetrics.AddLastestPlatformEnergy nodePlatformEnergy,
           log := c.log ++ [NodeReadEvent.platformRead] }

/-- `updateNodeComponentsEnergy`: read the components package when system
collection is supported; otherwise, when the node component power model is
enabled, take the model estimate; record the result per socket. -/
def updateNodeComponentsEnergy (env : CollectorEnv) (c : Collector) : Collector :=
  let nodeComponentsEnergy :=
    if IsSystemCollectionSupported env.components then GetNodeComponentsEnergy env.components
    else if env.nodeComponentPowerModelEnabled then
      env.modelNodeComponentPowers c.NodeMetrics
    else []
  { c with NodeMetrics := c.NodeMetrics.AddNodeComponentsEnergy nodeComponentsEnergy,
           log := c.log ++ [NodeReadEvent.componentsRead] }

/-- `updateNodeGPUEnergy`: only when the GPU feature is enabled, read the
per-GPU energy and add it to the node record. -/
def updateNodeGPUEnergy (env : CollectorEnv) (c : Collector) : Collector :=
  if env.enabledGPU then
    { c with NodeMetrics := c.NodeMetrics.AddNodeGPUEnergy env.gpuEnergyPerGPU,
             log := c.log ++ [NodeReadEvent.gpuRead] }
  else c

/-- `updateNodeAvgCPUFrequency`: read the per-core CPU frequency from the ACPI
power meter. -/
def updateNodeAvgCPUFrequency (env : CollectorEnv) (c : Collector) : Collector :=
  { c with NodeCPUFrequency := env.cpuCoreFrequency,
           log := c.log ++ [NodeReadEvent.cpuFreqRead] }

/-- `updateNodeEnergyMetrics`: the node-level update sequence in source order:
platform energy, then component energies, then average CPU frequency, then
GPU energy. -/
def updateNodeEnergyMetrics (env : CollectorEnv) (c : Collector) : Collector :=
  updateNodeGPUEnergy env
    (updateNodeAvgCPUFrequency env
      (updateNodeComponentsEnergy env
        (updatePlatformEnergy env c)))

/-! ## Accelerator utilization metrics (`updateAcceleratorMetrics`) -/

/-- Modelled from the spec: `createContainersMetricsIfNotExist` (collector
package, not under src/) creates the container record lazily on first
observation of the container id and leaves an existing record untouched. -/
def Collector.createContainersMetricsIfNotExist (c : Collector) (containerID : String) :
    Collector :=
  match lookupA c.ContainersMetrics containerID with
  | some _ => c
  | none =>
      let cms := setA c.ContainersMetrics containerID (NewContainerMetrics containerID)
      { c with ContainersMetrics := cms }

/-- The write `c.ContainersMetrics[containerID].CounterStats[counterName].AddNewCurr(v)`:
delta-push `v` onto the named counter channel of the named container.  A
container id with no record is left unchanged (the callers create the record
first). -/
def Collector.addCounterNewCurr (c : Collector) (containerID counterName : String) (v : Nat) :
    Collector :=
  match lookupA c.ContainersMetrics containerID with
  | none => c
  | some m =>
      let stat := (lookupA m.counterStats counterName).getD UInt64Stat.zero
      let m' := { m with counterStats := setA m.counterStats counterName (stat.AddNewCurr v) }
      { c with ContainersMetrics := setA c.ContainersMetrics containerID m' }

/-- Body of the inner pid loop of `updateAcceleratorMetrics`: resolve the
container id (falling back to the system-process name when the resolver
fails), create the container record if absent, and push the sample's SM and
memory utilization onto the container's channels. -/
def processPid (env : CollectorEnv) (c : Collector)
    (pu : Nat × ProcessUtilizationSample) : Collector :=
  let containerID :=
    match env.resolvePid pu.1 with
    | Except.ok id => id
    | Except.error _ => c.systemProcessName
  let c1 := c.createContainersMetricsIfNotExist containerID
  let c2 := c1.addCounterNewCurr containerID GPUSMUtilization pu.2.smUtil
  c2.addCounterNewCurr containerID GPUMemUtilization pu.2.memUtil

/-- Body of the outer device loop of `updateAcceleratorMetrics`: query the
device's process utilization and process each pid sample.  On a failed query
the error is only logged; the sample map carries no samples for this device
(modelled from the spec: a failed device contributes no samples this
interval). -/
def processDevice (env : CollectorEnv) (c : Collector) (device : Nat) : Collector :=
  let processesUtilization :=
    match env.queryDevice device with
    | Except.ok m => m
    | Except.error _ => []
  processesUtilization.foldl (processPid env) c

/-- `updateAcceleratorMetrics`: iterate the device loop over all GPUs. -/
def updateAcceleratorMetrics (env : CollectorEnv) (c : Collector) : Collector :=
  env.gpus.foldl (processDevice env) c

/-! ## Concrete instances used to evaluate the embedded operations -/

/-- Concrete file system on which only the kube-pods slice path exists. -/
def fsKube : CgroupFS :=
  { pathExists := fun p => p == KubePodCGroupPath
    searchByContainerID := fun top cid => top ++ "/" ++ cid ++ scopeSuffix
    readStats := fun _ => []
    standardName := fun _ => none }

/-- Concrete slice handler with no registered readers. -/
def handlerEmpty : SliceHandler :=
  { statReaders := [], CPUTopPath := KubePodCGroupPath,
    MemoryTopPath := KubePodCGroupPath, IOTopPath := KubePodCGroupPath }

/-- Concrete backend that reports system collection as supported. -/
def sysfsOn : PowerImpl :=
  { energyFromDram := Except.ok 1, energyFromCore := Except.ok 2,
    energyFromUncore := Except.ok 3, energyFromPackage := Except.ok 4,
    nodeComponentsEnergy := [(0, { pkg := 18, core := 15, dram := 11, uncore := 0 })],
    systemCollectionSupported := true }

/-- Concrete backend that reports system collection as unsupported. -/
def implOff : PowerImpl :=
  { energyFromDram := Except.ok 0, energyFromCore := Except.ok 0,
    energyFromUncore := Except.ok 0, energyFromPackage := Except.ok 0,
    nodeComponentsEnergy := [], systemCollectionSupported := false }

/-- Concrete components environment in which the sysfs backend is supported. -/
def componentsEnvSysfs : ComponentsEnv :=
  { sysfsImpl := sysfsOn, msrImpl := implOff, dummyImpl := implOff, useMSR := false }

/-- Empty node metric record. -/
def nodeMetrics0 : NodeMetrics :=
  { platformEnergy := [], componentsEnergy := [], gpuEnergy := [] }

/-- Fresh collector state with no container records. -/
def collector0 : Collector :=
  { ContainersMetrics := [], NodeMetrics := nodeMetrics0, NodeCPUFrequency := [],
    systemProcessName := "system_processes", log := [] }

/-- Concrete collector environment: ACPI meter supported, GPU enabled, three
GPUs of which device 1 fails its utilization query, and a resolver that fails
on every pid. -/
def envBase : CollectorEnv :=
  { acpiPowerSupported := true
    acpiHostEnergy := [("host", 42)]
    nodePlatformPowerModelEnabled := false
    estimatedNodePlatformPower := fun _ => []
    components := componentsEnvSysfs
    nodeComponentPowerModelEnabled := false
    modelNodeComponentPowers := fun _ => []
    enabledGPU := true
    gpuEnergyPerGPU := [(0, 7)]
    cpuCoreFrequency := [(0, 2400)]
    gpus := [0, 1, 2]
    queryDevice := fun d =>
      if d = 1 then Except.error "query failed"
      else Except.ok [(5, { smUtil := 3, memUtil := 2 })]
    resolvePid := fun _ => Except.error "unresolved" }

/-- Concrete environment in which the ACPI meter is unsupported and the node
platform power model substitutes the same per-sensor values that `envBase`'s
meter measures. -/
def envModelSub : CollectorEnv :=
  { envBase with acpiPowerSupported := false, acpiHostEnergy := [],
                 nodePlatformPowerModelEnabled := true,
                 estimatedNodePlatformPower := fun _ => [("host", 42)] }

/-- Concrete environment with the GPU feature disabled. -/
def envGPUOff : CollectorEnv :=
  { envBase with enabledGPU := false }

/-! ## Helper lemmas on the collector operations -/

theorem createContainersMetricsIfNotExist_lookup_self (c : Collector) (id : String) :
    lookupA (c.createContainersMetricsIfNotExist id).ContainersMetrics id =
      some ((lookupA c.ContainersMetrics id).getD (NewContainerMetrics id)) := by
  unfold Collector.createContainersMetricsIfNotExist
  cases h : lookupA c.ContainersMetrics id with
  | some m => simp [h]
  | none => simp [h, lookupA_setA_self]

theorem createContainersMetricsIfNotExist_lookup_ne (c : Collector) (id id' : String)
    (h : id' ≠ id) :
    lookupA (c.createContainersMetricsIfNotExist id).ContainersMetrics id' =
      lookupA c.ContainersMetrics id' := by
  unfold Collector.createContainersMetricsIfNotExist
  cases hl : lookupA c.ContainersMetrics id with
  | some m => simp
  | none => simp [lookupA_setA_ne _ _ _ _ h]

theorem addCounterNewCurr_lookup_self (c : Collector) (id k : String) (v : Nat)
    (m : ContainerMetrics) (h : lookupA c.ContainersMetrics id = some m) :
    lookupA (c.addCounterNewCurr id k v).ContainersMetrics id =
      some ⟨m.containerName,
            setA m.counterStats k
              (((lookupA m.counterStats k).getD UInt64Stat.zero).AddNewCurr v)⟩ := by
  unfold Collector.addCounterNewCurr
  simp [h, lookupA_setA_self]

theorem addCounterNewCurr_lookup_ne (c : Collector) (id id' k : String) (v : Nat)
    (h : id' ≠ id) :
    lookupA (c.addCounterNewCurr id k v).ContainersMetrics id' =
      lookupA c.ContainersMetrics id' := by
  unfold Collector.addCounterNewCurr
  cases hl : lookupA c.ContainersMetrics id with
  | none => simp
  | some m => simp [lookupA_setA_ne _ _ _ _ h]

theorem processDevice_error (env : CollectorEnv) (c : Collector) (d : Nat) (e : String)
    (hq : env.queryDevice d = Except.error e) : processDevice env c d = c := by
  unfold processDevice
  simp [hq]

theorem tryInitStatReaders_registered (fs : CgroupFS) (s : SliceHandler) (cid : String)
    (rs : List StatReader) (h : lookupA s.statReaders cid = some rs) :
    TryInitStatReaders fs s cid = s := by
  unfold TryInitStatReaders
  simp [h]

theorem tryInitStatReaders_lookup_new (fs : CgroupFS) (s : SliceHandler) (cid : String)
    (h : lookupA s.statReaders cid = none) :
    lookupA (TryInitStatReaders fs s cid).statReaders cid =
      some [StatReader.cpuStatReader (fs.searchByContainerID s.CPUTopPath cid),
            StatReader.memoryStatReader
              (stringReplaceFirst (fs.searchByContainerID s.CPUTopPath cid)
                s.CPUTopPath s.MemoryTopPath),
            StatReader.ioStatReader
              (stringReplaceFirst (fs.searchByContainerID s.CPUTopPath cid)
                s.CPUTopPath s.IOTopPath)] := by
  unfold TryInitStatReaders
  simp [h, lookupA_setA_self]

/-! ## Claim theorems -/

/-- C1: for every counter channel, `commit` sets the current value to the
non-negative difference of consecutive aggregates, `curr = max(0, agg -
prev_agg)`, and then sets `prev_agg = agg`; with one commit per interval after
the interval's writes, two successive aggregate writes of 10 then 20 by the
same producer yield `curr = 10`. -/
theorem commit_nonneg_diff_of_consecutive_aggregates (s : UInt64StatCollection) :
    ((s.commit.curr : Int) = max 0 ((s.aggr : Int) - (s.prevAggr : Int))) ∧
    s.commit.prevAggr = s.aggr ∧
    ((((UInt64StatCollection.empty.AddAggrStat "containerA" 10).commit).AddAggrStat
        "containerA" 20).commit).curr = 10 := by
  refine ⟨?_, rfl, by decide⟩
  show (((s.aggr - s.prevAggr : Nat) : Int) = max 0 ((s.aggr : Int) - (s.prevAggr : Int)))
  omega

/-- C4: the node-component energy backend is selected by trying the sysfs
backend first, then the MSR backend when its feature flag is enabled and it
reports supported, and the dummy backend otherwise; every package-level energy
read dispatches to the selected backend only. -/
theorem backend_selection_order_and_dispatch (env : ComponentsEnv) :
    (env.sysfsImpl.systemCollectionSupported = true → selectPowerImpl env = env.sysfsImpl) ∧
    (env.sysfsImpl.systemCollectionSupported = false →
      env.msrImpl.systemCollectionSupported = true → env.useMSR = true →
      selectPowerImpl env = env.msrImpl) ∧
    (env.sysfsImpl.systemCollectionSupported = false →
      (env.msrImpl.systemCollectionSupported && env.useMSR) = false →
      selectPowerImpl env = env.dummyImpl) ∧
    GetEnergyFromDram env = (selectPowerImpl env).energyFromDram ∧
    GetEnergyFromCore env = (selectPowerImpl env).energyFromCore ∧
    GetEnergyFromUncore env = (selectPowerImpl env).energyFromUncore ∧
    GetEnergyFromPackage env = (selectPowerImpl env).energyFromPackage ∧
    GetNodeComponentsEnergy env = (selectPowerImpl env).nodeComponentsEnergy := by
  refine ⟨?_, ?_, ?_, rfl, rfl, rfl, rfl, rfl⟩
  · intro h1
    simp [selectPowerImpl, h1]
  · intro h1 h2 h3
    simp [selectPowerImpl, h1, h2, h3]
  · intro h1 h2
    simp [selectPowerImpl, h1, h2]

/-- C4 witness: on the concrete environment whose sysfs backend reports
supported, the selection resolves to the sysfs backend. -/
theorem backend_selection_order_and_dispatch_witness :
    selectPowerImpl componentsEnvSysfs = componentsEnvSysfs.sysfsImpl :=
  (backend_selection_order_and_dispatch componentsEnvSysfs).1 rfl

/-- C5: `InitSliceHandler` probes the kube-pods slice, then the system slice,
then the legacy per-controller tree, and the first candidate that exists
determines all three top paths of the handler. -/
theorem initSliceHandler_probe_order (fs : CgroupFS) :
    (fs.pathExists KubePodCGroupPath = true →
      InitSliceHandler fs =
        ⟨[], KubePodCGroupPath, KubePodCGroupPath, KubePodCGroupPath⟩) ∧
    (fs.pathExists KubePodCGroupPath = false → fs.pathExists SystemCGroupPath = true →
      InitSliceHandler fs =
        ⟨[], SystemCGroupPath, SystemCGroupPath, SystemCGroupPath⟩) ∧
    (fs.pathExists KubePodCGroupPath = false → fs.pathExists SystemCGroupPath = false →
      InitSliceHandler fs =
        ⟨[], "/sys/fs/cgroup/cpu", "/sys/fs/cgroup/memory", "/sys/fs/cgroup/blkio"⟩) := by
  refine ⟨?_, ?_, ?_⟩
  · intro h1
    simp [InitSliceHandler, h1]
  · intro h1 h2
    simp [InitSliceHandler, h1, h2]
  · intro h1 h2
    simp [InitSliceHandler, h1, h2]
    exact ⟨rfl, rfl, rfl⟩

/-- C5 witness: on the concrete file system where only the kube-pods slice
exists, all three top paths are the kube-pods slice path. -/
theorem initSliceHandler_probe_order_witness :
    InitSliceHandler fsKube = ⟨[], KubePodCGroupPath, KubePodCGroupPath, KubePodCGroupPath⟩ :=
  (initSliceHandler_probe_order fsKube).1 (by decide)

/-- C8: for a container id with no registered stat readers, `GetStats` returns
the empty map and `GetStandardStat` hence yields no channel updates; no
failure is signalled. -/
theorem getStats_absent_update_on_missing_readers (fs : CgroupFS) (s : SliceHandler)
    (containerID : String) (h : lookupA s.statReaders containerID = none) :
    s.GetStats fs containerID = [] ∧ GetStandardStat fs s containerID = [] := by
  have h1 : s.GetStats fs containerID = [] := by
    unfold SliceHandler.GetStats
    simp [h]
  exact ⟨h1, by simp [GetStandardStat, h1, convertToStandard]⟩

/-- C8 witness: on the concrete handler with an empty registry, both reads of
container id `abc` return the empty map. -/
theorem getStats_absent_update_on_missing_readers_witness :
    handlerEmpty.GetStats fsKube "abc" = [] ∧ GetStandardStat fsKube handlerEmpty "abc" = [] :=
  getStats_absent_update_on_missing_readers fsKube handlerEmpty "abc" rfl

/-- C10: `TryInitStatReaders` is idempotent — a second call with the same
container id leaves the handler unchanged — and a first registration installs
exactly one CPU, one memory and one IO reader for the container id. -/
theorem tryInitStatReaders_idempotent (fs : CgroupFS) (s : SliceHandler)
    (containerID : String) :
    TryInitStatReaders fs (TryInitStatReaders fs s containerID) containerID =
      TryInitStatReaders fs s containerID ∧
    (lookupA s.statReaders containerID = none →
      ∃ p q r, lookupA (TryInitStatReaders fs s containerID).statReaders containerID =
        some [StatReader.cpuStatReader p, StatReader.memoryStatReader q,
              StatReader.ioStatReader r]) := by
  constructor
  · cases h : lookupA s.statReaders containerID with
    | some rs =>
        simp only [tryInitStatReaders_registered fs s containerID rs h]
    | none =>
        exact tryInitStatReaders_registered fs _ containerID _
          (tryInitStatReaders_lookup_new fs s containerID h)
  · intro h
    exact ⟨_, _, _, tryInitStatReaders_lookup_new fs s containerID h⟩

/-- C10 witness: registering readers for container id `abc` on the empty
handler twice equals registering them once, and the single registration holds
one reader per controller. -/
theorem tryInitStatReaders_idempotent_witness :
    TryInitStatReaders fsKube (TryInitStatReaders fsKube handlerEmpty "abc") "abc" =
      TryInitStatReaders fsKube handlerEmpty "abc" ∧
    ∃ p q r, lookupA (TryInitStatReaders fsKube handlerEmpty "abc").statReaders "abc" =
      some [StatReader.cpuStatReader p, StatReader.memoryStatReader q,
            StatReader.ioStatReader r] :=
  ⟨(tryInitStatReaders_idempotent fsKube handlerEmpty "abc").1,
   (tryInitStatReaders_idempotent fsKube handlerEmpty "abc").2 rfl⟩

/-- C9: when the GPU feature is disabled, `updateNodeGPUEnergy` performs no
read and leaves the collector state, in particular the node metrics record,
entirely unchanged; when enabled, exactly the per-GPU energy is added to the
node record. -/
theorem updateNodeGPUEnergy_frame (env : CollectorEnv) (c : Collector) :
    (env.enabledGPU = false → updateNodeGPUEnergy env c = c) ∧
    (env.enabledGPU = true →
      updateNodeGPUEnergy env c =
        { c with NodeMetrics := c.NodeMetrics.AddNodeGPUEnergy env.gpuEnergyPerGPU,
                 log := c.log ++ [NodeReadEvent.gpuRead] }) := by
  constructor
  · intro h
    simp [updateNodeGPUEnergy, h]
  · intro h
    simp [updateNodeGPUEnergy, h]

/-- C9 witness: on the concrete environment with the GPU feature disabled, the
update is the identity on the collector state. -/
theorem updateNodeGPUEnergy_frame_witness :
    updateNodeGPUEnergy envGPUOff collector0 = collector0 :=
  (updateNodeGPUEnergy_frame envGPUOff collector0).1 rfl

/-- C6 counterexample: the collector state produced by `updatePlatformEnergy`
from a supported meter measuring 42 mJ is identical to the state produced from
an unsupported meter whose enabled platform power model estimates the same
42 mJ, so the substituted model value is not flagged distinctly from a
measured value anywhere in the recorded state. -/
theorem updatePlatformEnergy_no_provenance_flag :
    envBase.acpiPowerSupported = true ∧
    envModelSub.acpiPowerSupported = false ∧
    envModelSub.nodePlatformPowerModelEnabled = true ∧
    updatePlatformEnergy envBase collector0 = updatePlatformEnergy envModelSub collector0 :=
  ⟨rfl, rfl, rfl, rfl⟩

/-- C6 (amended): `updatePlatformEnergy` records the measured ACPI platform
energy whenever the meter reports power as supported; only when the meter is
unsupported and the node platform power model is enabled does it record the
model estimate instead; the substituted value is recorded through the same
node platform channel with no distinct provenance flag. -/
theorem updatePlatformEnergy_measured_wins (env : CollectorEnv) (c : Collector) :
    (env.acpiPowerSupported = true →
      updatePlatformEnergy env c =
        ⟨c.ContainersMetrics, c.NodeMetrics.AddLastestPlatformEnergy env.acpiHostEnergy,
         c.NodeCPUFrequency, c.systemProcessName, c.log ++ [NodeReadEvent.platformRead]⟩) ∧
    (env.acpiPowerSupported = false → env.nodePlatformPowerModelEnabled = true →
      updatePlatformEnergy env c =
        ⟨c.ContainersMetrics,
         c.NodeMetrics.AddLastestPlatformEnergy (env.estimatedNodePlatformPower c.NodeMetrics),
         c.NodeCPUFrequency, c.systemProcessName, c.log ++ [NodeReadEvent.platformRead]⟩) ∧
    (env.acpiPowerSupported = false → env.nodePlatformPowerModelEnabled = false →
      updatePlatformEnergy env c =
        ⟨c.ContainersMetrics, c.NodeMetrics.AddLastestPlatformEnergy [],
         c.NodeCPUFrequency, c.systemProcessName, c.log ++ [NodeReadEvent.platformRead]⟩) := by
  refine ⟨?_, ?_, ?_⟩
  · intro h1
    simp [updatePlatformEnergy, h1]
  · intro h1 h2
    simp [updatePlatformEnergy, h1, h2]
  · intro h1 h2
    simp [updatePlatformEnergy, h1, h2]

/-- C6 witness: on the concrete environment with a supported meter, the
measured per-sensor map is the one recorded. -/
theorem updatePlatformEnergy_measured_wins_witness :
    updatePlatformEnergy envBase collector0 =
      ⟨collector0.ContainersMetrics,
       collector0.NodeMetrics.AddLastestPlatformEnergy envBase.acpiHostEnergy,
       collector0.NodeCPUFrequency, collector0.systemProcessName,
       collector0.log ++ [NodeReadEvent.platformRead]⟩ :=
  (updatePlatformEnergy_measured_wins envBase collector0).1 rfl

/-- C7 counterexample: running the node-energy update on a concrete
environment shows the leaf-read order platform, components, CPU frequency,
GPU; the node-components read does not precede the platform read, contrary to
the claimed order. -/
theorem updateNodeEnergyMetrics_order_counterexample :
    (updateNodeEnergyMetrics envBase collector0).log =
      [NodeReadEvent.platformRead, NodeReadEvent.componentsRead,
       NodeReadEvent.cpuFreqRead, NodeReadEvent.gpuRead] ∧
    ¬ List.indexOf NodeReadEvent.componentsRead (updateNodeEnergyMetrics envBase collector0).log <
        List.indexOf NodeReadEvent.platformRead (updateNodeEnergyMetrics envBase collector0).log := by
  constructor
  · rfl
  · decide

/-- C7 (amended): within every tick, `updateNodeEnergyMetrics` performs the
platform read first, then the node-components read, then the CPU-frequency
probe, then the GPU read when the GPU feature is enabled; in particular the
platform read precedes the node-components read. -/
theorem updateNodeEnergyMetrics_read_order (env : CollectorEnv) (c : Collector) :
    (updateNodeEnergyMetrics env c).log =
      c.log ++ [NodeReadEvent.platformRead, NodeReadEvent.componentsRead,
                NodeReadEvent.cpuFreqRead] ++
        (if env.enabledGPU then [NodeReadEvent.gpuRead] else []) := by
  by_cases h : env.enabledGPU
  · simp [updateNodeEnergyMetrics, updatePlatformEnergy, updateNodeComponentsEnergy,
          updateNodeAvgCPUFrequency, updateNodeGPUEnergy, h]
  · simp [updateNodeEnergyMetrics, updatePlatformEnergy, updateNodeComponentsEnergy,
          updateNodeAvgCPUFrequency, updateNodeGPUEnergy, h]

/-- C2: in `updateAcceleratorMetrics`, a device whose process-utilization
query fails contributes no utilization samples to any container's channels in
that interval, while the remaining devices are still processed in order. -/
theorem updateAcceleratorMetrics_failed_device_skipped (env : CollectorEnv) (c : Collector)
    (l1 l2 : List Nat) (d : Nat) (e : String)
    (hq : env.queryDevice d = Except.error e)
    (hg : env.gpus = l1 ++ d :: l2) :
    updateAcceleratorMetrics env c = List.foldl (processDevice env) c (l1 ++ l2) := by
  unfold updateAcceleratorMetrics
  rw [hg, List.foldl_append, List.foldl_cons,
      processDevice_error env _ d e hq, ← List.foldl_append]

/-- C2 witness: on the concrete environment where device 1 of three fails its
query, the update equals processing only devices 0 and 2. -/
theorem updateAcceleratorMetrics_failed_device_skipped_witness :
    updateAcceleratorMetrics envBase collector0 =
      List.foldl (processDevice envBase) collector0 [0, 2] :=
  updateAcceleratorMetrics_failed_device_skipped envBase collector0 [0] [2] 1
    "query failed" rfl rfl

/-- C3: when the container-identity resolver fails for a sampled pid, the
sample is attributed to the reserved system-process container: the record for
the system-process name is created if absent, its SM-utilization and
memory-utilization channels receive the pid's values as delta pushes, and
every other container's record is unchanged. -/
theorem processPid_unresolved_to_system_process (env : CollectorEnv) (c : Collector)
    (pid : Nat) (s : ProcessUtilizationSample) (e : String)
    (hr : env.resolvePid pid = Except.error e) :
    (∃ m', lookupA (processPid env c (pid, s)).ContainersMetrics c.systemProcessName =
        some m' ∧
      lookupA m'.counterStats GPUSMUtilization =
        some (((lookupA ((lookupA c.ContainersMetrics c.systemProcessName).getD
            (NewContainerMetrics c.systemProcessName)).counterStats
              GPUSMUtilization).getD UInt64Stat.zero).AddNewCurr s.smUtil) ∧
      lookupA m'.counterStats GPUMemUtilization =
        some (((lookupA ((lookupA c.ContainersMetrics c.systemProcessName).getD
            (NewContainerMetrics c.systemProcessName)).counterStats
              GPUMemUtilization).getD UInt64Stat.zero).AddNewCurr s.memUtil)) ∧
    (∀ id, id ≠ c.systemProcessName →
      lookupA (processPid env c (pid, s)).ContainersMetrics id =
        lookupA c.ContainersMetrics id) := by
  have hne1 : GPUMemUtilization ≠ GPUSMUtilization := by decide
  have hne2 : GPUSMUtilization ≠ GPUMemUtilization := by decide
  have hp : processPid env c (pid, s) =
      ((c.createContainersMetricsIfNotExist c.systemProcessName).addCounterNewCurr
        c.systemProcessName GPUSMUtilization s.smUtil).addCounterNewCurr
        c.systemProcessName GPUMemUtilization s.memUtil := by
    simp only [processPid, hr]
  have h1 : lookupA (c.createContainersMetricsIfNotExist
      c.systemProcessName).ContainersMetrics c.systemProcessName =
      some ((lookupA c.ContainersMetrics c.systemProcessName).getD
        (NewContainerMetrics c.systemProcessName)) :=
    createContainersMetricsIfNotExist_lookup_self c c.systemProcessName
  have h2 := addCounterNewCurr_lookup_self (c.createContainersMetricsIfNotExist
    c.systemProcessName) c.systemProcessName GPUSMUtilization s.smUtil _ h1
  have h3 := addCounterNewCurr_lookup_self _ c.systemProcessName GPUMemUtilization
    s.memUtil _ h2
  rw [hp]
  refine ⟨⟨_, h3, ?_, ?_⟩, ?_⟩
  · dsimp only
    rw [lookupA_setA_ne _ _ _ _ hne2, lookupA_setA_self]
  · dsimp only
    rw [lookupA_setA_self, lookupA_setA_ne _ _ _ _ hne1]
  · intro id hid
    rw [addCounterNewCurr_lookup_ne _ _ _ _ _ hid,
        addCounterNewCurr_lookup_ne _ _ _ _ _ hid,
        createContainersMetricsIfNotExist_lookup_ne _ _ _ hid]

/-- C3 witness: on the concrete environment whose resolver fails for pid 5,
the sample (SM 3, memory 2) lands on the system-process container of the
fresh collector, and all other container ids are untouched. -/
theorem processPid_unresolved_to_system_process_witness :
    (∃ m', lookupA (processPid envBase collector0
        (5, ⟨3, 2⟩)).ContainersMetrics collector0.systemProcessName = some m' ∧
      lookupA m'.counterStats GPUSMUtilization =
        some (((lookupA ((lookupA collector0.ContainersMetrics
            collector0.systemProcessName).getD
            (NewContainerMetrics collector0.systemProcessName)).counterStats
              GPUSMUtilization).getD UInt64Stat.zero).AddNewCurr 3) ∧
      lookupA m'.counterStats GPUMemUtilization =
        some (((lookupA ((lookupA collector0.ContainersMetrics
            collector0.systemProcessName).getD
            (NewContainerMetrics collector0.systemProcessName)).counterStats
              GPUMemUtilization).getD UInt64Stat.zero).AddNewCurr 2)) ∧
    (∀ id, id ≠ collector0.systemProcessName →
      lookupA (processPid envBase collector0 (5, ⟨3, 2⟩)).ContainersMetrics id =
        lookupA collector0.ContainersMetrics id) :=
  processPid_unresolved_to_system_process envBase collector0 5 ⟨3, 2⟩ "unresolved" rfl

end Kepler
